import Mathlib

/-!
Verification of the template-literal experiment repository.

The embedding models the runtime pieces of the source file
(`processValue`, `processTag`, `t = processTag(processValue)`) and the
two Babel transforms (`transformTTL`, `transformLabelToReturn`) that the
`fromFile` compiler applies, over a shallow model of JavaScript values
and of the Babel syntax tree.

Modelling conventions for JavaScript semantics:
- JS values are the inductive `JSValue`; numbers are modelled as `Int`
  (the claims only involve small integers, so double semantics and NaN
  are not needed).
- A callable is `vfun (f : Unit → Except JSException JSValue)`: invoking
  it may itself raise a JS exception (e.g. if its body applies the tag
  to an array value).
- `x || y` is `jsOr` driven by JS truthiness.
- `typeof null` is `"object"` in JavaScript, so `vnull` falls into the
  `typeof value === 'object'` branch of `processValue`, like in the
  source.
- `Array.join('')` in the source calls `join` on the `Array`
  constructor itself; in Node `Array.join` is `undefined`, so the call
  raises `TypeError: Array.join is not a function`. The model raises the
  corresponding `JSException`.
- `JSON.stringify` and string coercion (`+=`) are modelled by
  `jsonStringify` and `jsToString`; `JSON.stringify` returns no string
  on `undefined` and functions (modelled by `Option`), and string
  coercion of a function would print its source text, which is not
  representable, so a fixed placeholder is used (no claim depends on it).
-/

/-- A JavaScript exception, as raised by the modelled code. -/
inductive JSException where
  | typeError (msg : String)
deriving Repr, DecidableEq

set_option genSizeOfSpec false in
/-- Shallow model of the JavaScript values the template engine handles:
primitives, arrays, plain objects, and zero-argument callables. -/
inductive JSValue where
  | vundefined : JSValue
  | vnull : JSValue
  | vbool (b : Bool) : JSValue
  | vnum (n : Int) : JSValue
  | vstr (s : String) : JSValue
  | varr (elems : List JSValue) : JSValue
  | vobj (fields : List (String × JSValue)) : JSValue
  | vfun (f : Unit → Except JSException JSValue) : JSValue

/-- JavaScript truthiness of a value. -/
def truthy : JSValue → Bool
  | .vundefined => false
  | .vnull => false
  | .vbool b => b
  | .vnum n => n != 0
  | .vstr s => s != ""
  | .varr _ => true
  | .vobj _ => true
  | .vfun _ => true

/-- The JavaScript expression `x || y`: `x` when truthy, else `y`. -/
def jsOr (x y : JSValue) : JSValue :=
  if truthy x then x else y

/-- The `typeof value === 'function'` test. -/
def typeofIsFunction : JSValue → Bool
  | .vfun _ => true
  | _ => false

/-- The `Array.isArray(value)` test. -/
def isArray : JSValue → Bool
  | .varr _ => true
  | _ => false

/-- The `typeof value === 'object'` test: true for `null`, arrays and
plain objects in JavaScript. -/
def typeofIsObject : JSValue → Bool
  | .vnull => true
  | .varr _ => true
  | .vobj _ => true
  | _ => false

/-- JSON string escaping of one character (quote and backslash; control
characters do not occur in the claims' inputs). -/
def jsonEscapeChar (c : Char) : String :=
  if c = '"' then "\\\""
  else if c = '\\' then "\\\\"
  else String.singleton c

/-- A JSON string literal for `s`. -/
def jsonQuote (s : String) : String :=
  "\"" ++ String.join (s.data.map jsonEscapeChar) ++ "\""

mutual

/-- Model of `JSON.stringify`: `none` when JavaScript returns
`undefined` (top-level `undefined` or a function). -/
def jsonStringify : JSValue → Option String
  | .vundefined => none
  | .vfun _ => none
  | .vnull => some "null"
  | .vbool b => some (cond b "true" "false")
  | .vnum n => some (toString n)
  | .vstr s => some (jsonQuote s)
  | .varr xs => some ("[" ++ jsonElems xs ++ "]")
  | .vobj fs => some ("\x7b" ++ String.intercalate "," (jsonFieldStrings fs) ++ "\x7d")

/-- JSON serialization of array elements: elements that stringify to
nothing (undefined, functions) appear as `null`, comma separated. -/
def jsonElems : List JSValue → String
  | [] => ""
  | [x] => (jsonStringify x).getD "null"
  | x :: y :: xs => (jsonStringify x).getD "null" ++ "," ++ jsonElems (y :: xs)

/-- JSON serialization of object fields: fields whose value stringifies
to nothing are omitted, as `JSON.stringify` does. -/
def jsonFieldStrings : List (String × JSValue) → List String
  | [] => []
  | (k, v) :: fs =>
    match jsonStringify v with
    | none => jsonFieldStrings fs
    | some s => (jsonQuote k ++ ":" ++ s) :: jsonFieldStrings fs

end

mutual

/-- One element of array-to-string coercion: `null` and `undefined`
elements contribute the empty string, other elements their ordinary
string coercion (same cases as `jsToString` below). -/
def jsArrElemToString : JSValue → String
  | .vundefined => ""
  | .vnull => ""
  | .vbool b => cond b "true" "false"
  | .vnum n => toString n
  | .vstr s => s
  | .varr xs => jsArrToString xs
  | .vobj _ => "[object Object]"
  | .vfun _ => "function"

/-- Array-to-string coercion: elements joined with `,`. -/
def jsArrToString : List JSValue → String
  | [] => ""
  | [x] => jsArrElemToString x
  | x :: y :: xs => jsArrElemToString x ++ "," ++ jsArrToString (y :: xs)

end

/-- JavaScript string coercion, as applied by `result += x` when
`result` is a string. Function coercion would produce the function's
source text, which a shallow embedding cannot represent; a fixed
placeholder stands in (no claim depends on that case). -/
def jsToString : JSValue → String
  | .vundefined => "undefined"
  | .vnull => "null"
  | .vbool b => cond b "true" "false"
  | .vnum n => toString n
  | .vstr s => s
  | .varr xs => jsArrToString xs
  | .vobj _ => "[object Object]"
  | .vfun _ => "function"

/-- Embedding of `processValue` (src/unnamed/part_001 lines 84-94):

```
function processValue(value) {
  if (typeof value === 'function') {
    return value() || '';
  } else if (Array.isArray(value)) {
    return Array.join('') || '';
  } else if (typeof value === 'object') {
    return JSON.stringify(value) || '';
  } else {
    return value || '';
  }
}
```

The branch tests `typeofIsFunction`, `isArray`, `typeofIsObject` are
disjoint by constructor once ordered, so the embedding matches on the
constructor directly in the same priority order. `Array.join('')` calls
`join` on the `Array` constructor, which is not a function, so that
branch raises a `TypeError`. -/
def processValue (value : JSValue) : Except JSException JSValue :=
  match value with
  | .vfun f => (f ()).map (fun r => jsOr r (.vstr ""))
  | .varr _ => .error (.typeError "Array.join is not a function")
  | .vnull => pure (jsOr (.vstr ((jsonStringify .vnull).getD "")) (.vstr ""))
  | .vobj fs => pure (jsOr (.vstr ((jsonStringify (.vobj fs)).getD "")) (.vstr ""))
  | v => pure (jsOr v (.vstr ""))

/-- The loop of `processTag`'s returned function: for `i` from 1, append
`processor(values[i-1])` (string-coerced by `+=`) then `parts[i]` to the
accumulator. Out-of-range `values[i-1]` is `undefined` in JavaScript,
modelled by `List.headD` with default `vundefined`. -/
def processTagLoop (processor : JSValue → Except JSException JSValue) :
    List String → List JSValue → String → Except JSException String
  | [], _, acc => pure acc
  | p :: ps, vals, acc =>
    match processor (vals.headD .vundefined) with
    | .error e => .error e
    | .ok r => processTagLoop processor ps (vals.drop 1) (acc ++ jsToString r ++ p)

/-- Embedding of `processTag` (src/unnamed/part_001 lines 97-106):

```
function processTag(processor) {
  return function(parts, ...values) {
    let result = parts[0];
    for (var i = 1; i < parts.length; i++) {
      result += processor(values[i - 1]);
      result += parts[i];
    }
    return result;
  };
}
```

When `parts` is empty, `parts[0]` is `undefined` and the loop body never
runs, so the function returns `undefined`. -/
def processTag (processor : JSValue → Except JSException JSValue)
    (parts : List String) (values : List JSValue) : Except JSException JSValue :=
  match parts with
  | [] => pure .vundefined
  | p0 :: rest => (processTagLoop processor rest values p0).map .vstr

/-- Embedding of `const t = processTag(processValue)` — the Template Tag
used by the rewritten sources. -/
def t (parts : List String) (values : List JSValue) : Except JSException JSValue :=
  processTag processValue parts values

/-! ## Spec-side descriptions used in theorem statements -/

/-- Left-to-right processing of a list of values, stopping at the first
exception exactly as the loop in `processTag` does. -/
def mapMProc (proc : JSValue → Except JSException JSValue) :
    List JSValue → Except JSException (List JSValue)
  | [] => .ok []
  | v :: vs =>
    match proc v with
    | .error e => .error e
    | .ok r => (mapMProc proc vs).map (r :: ·)

/-- Interleave processed-value strings with the tail fragments:
`interleave [r1, ..., rn] [p1, ..., pn] = r1 ++ p1 ++ ... ++ rn ++ pn`. -/
def interleave : List String → List String → String
  | r :: rs, p :: ps => r ++ p ++ interleave rs ps
  | _, _ => ""

/-- The first `n` positions of `vals` as JavaScript indexing sees them:
positions past the end read `undefined`. -/
def padTo (n : Nat) (vals : List JSValue) : List JSValue :=
  vals.take n ++ List.replicate (n - vals.length) .vundefined

theorem padTo_cons (n : Nat) (vals : List JSValue) :
    padTo (n + 1) vals = vals.headD .vundefined :: padTo n (vals.drop 1) := by
  cases vals with
  | nil => simp [padTo, List.replicate_succ]
  | cons v vs => simp [padTo]

/-- The tag loop computes: process the first `rest.length` value slots
left to right (missing slots read `undefined`), then interleave their
string coercions with the tail fragments after the accumulator. -/
theorem processTagLoop_eq (proc : JSValue → Except JSException JSValue)
    (rest : List String) (vals : List JSValue) (acc : String) :
    processTagLoop proc rest vals acc =
      (mapMProc proc (padTo rest.length vals)).map
        (fun rs => acc ++ interleave (rs.map jsToString) rest) := by
  induction rest generalizing vals acc with
  | nil =>
    simp [processTagLoop, padTo, mapMProc, interleave, Except.map, String.append_empty,
      pure, Except.pure]
  | cons p ps ih =>
    rw [List.length_cons, padTo_cons]
    simp only [processTagLoop, mapMProc]
    cases h : proc (vals.headD .vundefined) with
    | error e => rfl
    | ok r =>
      dsimp only
      rw [ih]
      cases hm : mapMProc proc (padTo ps.length (vals.drop 1)) with
      | error e => rfl
      | ok rs =>
        simp only [Except.map, interleave, String.append_assoc]

/-- JSON serialization of an object is never the empty string: it is
always wrapped in braces. -/
theorem vobj_json_ne_empty (fs : List (String × JSValue)) :
    ("\x7b" ++ String.intercalate "," (jsonFieldStrings fs) ++ "\x7d") ≠ "" := by
  intro hcon
  have hlen := congrArg String.length hcon
  simp [String.length_append] at hlen
  exact absurd hlen.1.1 (by decide)

/-! ## Claim theorems -/

/-- C1 (code behavior at the failing input): the sequence branch of
`processValue` does not join the array's elements; `Array.join('')`
calls `join` on the `Array` constructor, which is not a function, so the
call throws a `TypeError` instead of returning `"ab"`. -/
theorem c1_sequence_branch_throws :
    processValue (.varr [.vstr "a", .vstr "b"]) =
      .error (.typeError "Array.join is not a function") := rfl

/-- C2: for fragments `p0 :: rest` with `rest` as long as `values`
(i.e. `len(fragments) = len(values) + 1`), when processing each value in
order succeeds with results `rs`, the Template Tag returns `fragments[0]`
followed by `process(values[i-1])` then `fragments[i]` for each `i`, in
order. Left-to-right processing order is captured by `mapMProc`, which
stops at the first exception exactly as the tag's loop does. -/
theorem c2_tag_interleaves_fragments_and_processed_values
    (p0 : String) (rest : List String) (values rs : List JSValue)
    (hlen : rest.length = values.length)
    (hproc : mapMProc processValue values = .ok rs) :
    t (p0 :: rest) values =
      .ok (.vstr (p0 ++ interleave (rs.map jsToString) rest)) := by
  have hp : padTo rest.length values = values := by
    simp [padTo, hlen]
  simp [t, processTag, processTagLoop_eq, hp, hproc, Except.map]

/-- Witness for C2 at `t` applied to fragments `["a", "b"]` and the one
value `"x"`, giving `"axb"`. -/
theorem c2_tag_interleaves_fragments_and_processed_values_witness :
    (["b"] : List String).length = ([JSValue.vstr "x"] : List JSValue).length ∧
      mapMProc processValue [JSValue.vstr "x"] = .ok [JSValue.vstr "x"] ∧
      t ["a", "b"] [JSValue.vstr "x"] =
        .ok (.vstr ("a" ++ interleave ([JSValue.vstr "x"].map jsToString) ["b"])) :=
  ⟨rfl, rfl,
    c2_tag_interleaves_fragments_and_processed_values "a" ["b"]
      [JSValue.vstr "x"] [JSValue.vstr "x"] rfl rfl⟩

/-- C3 counterexample: the Template Tag does not reject an invocation
with three fragments and one value (`3 ≠ 1 + 1`); it returns the normal
string `"axbc"`, the missing value being read as `undefined` and
processed to the empty string. -/
theorem c3_counterexample_no_arity_rejection :
    (["a", "b", "c"] : List String).length ≠
        ([JSValue.vstr "x"] : List JSValue).length + 1 ∧
      t ["a", "b", "c"] [JSValue.vstr "x"] = .ok (.vstr "axbc") :=
  ⟨by decide, rfl⟩

/-- C3 amended: the Template Tag performs no arity check at all. For any
fragments `p0 :: rest` and any values list whatsoever, it reads exactly
the first `rest.length` value slots (out-of-range slots read
`undefined`, which processes to the empty string; extra values are
ignored) and returns the interleaved string. In a genuine tagged-template
invocation the JavaScript runtime itself guarantees
`len(fragments) = len(values) + 1`; the tag never checks it. -/
theorem c3_tag_accepts_any_arity
    (p0 : String) (rest : List String) (values rs : List JSValue)
    (hproc : mapMProc processValue (padTo rest.length values) = .ok rs) :
    t (p0 :: rest) values =
      .ok (.vstr (p0 ++ interleave (rs.map jsToString) rest)) := by
  simp [t, processTag, processTagLoop_eq, hproc, Except.map]

/-- Witness for the amended C3 at a mismatched invocation: three
fragments, one value. -/
theorem c3_tag_accepts_any_arity_witness :
    mapMProc processValue (padTo (["b", "c"] : List String).length [JSValue.vstr "x"]) =
        .ok [JSValue.vstr "x", JSValue.vstr ""] ∧
      t ["a", "b", "c"] [JSValue.vstr "x"] =
        .ok (.vstr ("a" ++ interleave
          ([JSValue.vstr "x", JSValue.vstr ""].map jsToString) ["b", "c"])) :=
  ⟨rfl,
    c3_tag_accepts_any_arity "a" ["b", "c"] [JSValue.vstr "x"]
      [JSValue.vstr "x", JSValue.vstr ""] rfl⟩

/-- C4 counterexample: `processValue` does not recursively process a
callable's result. For the callable returning the object
`\x7ba: 1\x7d`, the code returns the raw object, while processing that
result through the Value Processor again gives its JSON string — the
two disagree, so the result of the call is not routed back through the
processor. -/
theorem c4_counterexample_no_recursive_processing :
    processValue (.vfun (fun _ => .ok (.vobj [("a", .vnum 1)]))) =
        .ok (.vobj [("a", .vnum 1)]) ∧
      processValue (.vobj [("a", .vnum 1)]) = .ok (.vstr "\x7b\"a\":1\x7d") ∧
      processValue (.vfun (fun _ => .ok (.vobj [("a", .vnum 1)]))) ≠
        processValue (.vobj [("a", .vnum 1)]) := by
  refine ⟨rfl, rfl, ?_⟩
  intro hcon
  have h1 : (Except.ok (JSValue.vobj [("a", JSValue.vnum 1)]) :
      Except JSException JSValue) = .ok (.vstr "\x7b\"a\":1\x7d") := hcon
  exact JSValue.noConfusion (Except.ok.inj h1)

/-- C4 amended: for every callable value the Value Processor invokes it
with no arguments and returns the call's result unmodified except that a
falsy result (undefined, null, false, 0, the empty string) is replaced
by the empty string; the result is NOT recursively processed. In
particular `process(() => 'x')` returns `'x'` and
`process(() => undefined)` returns `''`. -/
theorem c4_callable_invoked_once_without_recursion :
    (∀ (f : Unit → Except JSException JSValue) (r : JSValue),
        f () = .ok r → processValue (.vfun f) = .ok (jsOr r (.vstr ""))) ∧
      processValue (.vfun (fun _ => .ok (.vstr "x"))) = .ok (.vstr "x") ∧
      processValue (.vfun (fun _ => .ok .vundefined)) = .ok (.vstr "") := by
  refine ⟨?_, rfl, rfl⟩
  intro f r h
  simp [processValue, h, Except.map]

/-- Witness for the amended C4 at the callable returning the number 5. -/
theorem c4_callable_invoked_once_without_recursion_witness :
    (fun (_ : Unit) => (Except.ok (JSValue.vnum 5) : Except JSException JSValue)) () =
        .ok (.vnum 5) ∧
      processValue (.vfun (fun _ => .ok (.vnum 5))) = .ok (jsOr (.vnum 5) (.vstr "")) :=
  ⟨rfl,
    c4_callable_invoked_once_without_recursion.1
      (fun _ => .ok (.vnum 5)) (.vnum 5) rfl⟩

/-- C5 counterexample: `process(null)` does not return the empty string.
Since `typeof null === 'object'` in JavaScript, `null` falls into the
`JSON.stringify` branch, which yields the four-character string
`"null"`. -/
theorem c5_counterexample_null_stringifies :
    processValue JSValue.vnull = .ok (.vstr "null") ∧
      processValue JSValue.vnull ≠ .ok (.vstr "") := by
  refine ⟨rfl, ?_⟩
  intro hcon
  have h1 : (Except.ok (JSValue.vstr "null") : Except JSException JSValue) =
      .ok (.vstr "") := hcon
  exact absurd (JSValue.vstr.inj (Except.ok.inj h1)) (by decide)

/-- C5 amended: for values that are neither callable nor arrays — (a)
every structured record is serialized to its JSON text (never empty, so
the `|| ''` fallback never fires); (b) `null` also takes the JSON
branch, because `typeof null === 'object'`, and gives the string
`"null"`, not the empty string; (c) falsy primitives (undefined, false,
0, the empty string) give the empty string; (d) truthy primitives are
returned unchanged — in particular numbers and booleans are NOT
converted to their string form by `processValue` (the `+=` in the tag
does that). -/
theorem c5_object_branch_and_primitive_branch :
    (∀ fs : List (String × JSValue),
        processValue (.vobj fs) =
          .ok (.vstr ("\x7b" ++ String.intercalate "," (jsonFieldStrings fs) ++ "\x7d"))) ∧
      processValue JSValue.vnull = .ok (.vstr "null") ∧
      (∀ v : JSValue, typeofIsFunction v = false → isArray v = false →
        typeofIsObject v = false → truthy v = false →
        processValue v = .ok (.vstr "")) ∧
      (∀ v : JSValue, typeofIsFunction v = false → isArray v = false →
        typeofIsObject v = false → truthy v = true →
        processValue v = .ok v) := by
  refine ⟨?_, rfl, ?_, ?_⟩
  · intro fs
    simp [processValue, jsonStringify, jsOr, truthy, pure, Except.pure,
      vobj_json_ne_empty fs]
  · intro v h1 h2 h3 h4
    cases v <;> simp_all [processValue, typeofIsFunction, isArray, typeofIsObject,
      truthy, jsOr, pure, Except.pure]
  · intro v h1 h2 h3 h4
    cases v <;> simp_all [processValue, typeofIsFunction, isArray, typeofIsObject,
      truthy, jsOr, pure, Except.pure]

/-- Witness for the amended C5: the falsy primitive `false` processes to
the empty string. -/
theorem c5_object_branch_and_primitive_branch_witness :
    typeofIsFunction (JSValue.vbool false) = false ∧
      isArray (JSValue.vbool false) = false ∧
      typeofIsObject (JSValue.vbool false) = false ∧
      truthy (JSValue.vbool false) = false ∧
      processValue (JSValue.vbool false) = .ok (.vstr "") :=
  ⟨rfl, rfl, rfl, rfl,
    c5_object_branch_and_primitive_branch.2.2.1 (JSValue.vbool false) rfl rfl rfl rfl⟩

/-- C8: the Template Tag is re-entrant. A callable value whose body
applies the tag again is processed into the fully resolved inner string
and concatenated into the outer result:
the model of ``t`<a>${() => t`<b>${1}</b>`}</a>`` evaluates to
`"<a><b>1</b></a>"`. -/
theorem c8_reentrant_nested_tag :
    t ["<a>", "</a>"] [.vfun (fun _ => t ["<b>", "</b>"] [.vnum 1])] =
      .ok (.vstr "<a><b>1</b></a>") := rfl

/-- C9: the Value Processor is idempotent on plain strings — a string
value (already a possible `process` result) is returned unchanged: a
non-empty string is truthy and returned as-is, and the empty string is
mapped to the empty string by the `|| ''` fallback. -/
theorem c9_process_idempotent_on_strings (s : String) :
    processValue (.vstr s) = .ok (.vstr s) := by
  rcases eq_or_ne s "" with h | h
  · subst h; rfl
  · simp [processValue, jsOr, truthy, pure, Except.pure, h]

/-- C10: `processValue` applied to any array value throws the
`TypeError` from `Array.join('')` (the `join` of the `Array`
constructor is not a function), rather than returning any string. -/
theorem c10_process_array_throws (xs : List JSValue) :
    processValue (.varr xs) = .error (.typeError "Array.join is not a function") := rfl

/-! ## Syntax-tree model for the two Babel transforms -/

mutual

/-- Shallow model of the Babel syntax-tree node kinds the two transforms
inspect (`TemplateLiteral`, `TaggedTemplateExpression`,
`LabeledStatement`, the `ReturnStatement` they create, and the
surrounding statements); every other node kind is `otherNode`, a kind
tag plus children, over which the visitors simply recurse. -/
inductive JSNode where
  | templateLiteral (quasis : List String) (exprs : JSNodeList)
  | taggedTemplateExpression (tag : JSNode) (quasi : JSNode)
  | identifier (name : String)
  | labeledStatement (label : String) (body : JSNode)
  | returnStatement (argument : JSNode)
  | expressionStatement (expression : JSNode)
  | program (body : JSNodeList)
  | otherNode (kind : String) (children : JSNodeList)

/-- A list of sibling syntax-tree nodes. -/
inductive JSNodeList where
  | nil
  | cons (head : JSNode) (tail : JSNodeList)

end

mutual

/-- Embedding of the tag-insertion transform `transformTTL`
(src/unnamed/part_001 lines 174-190):

```
TemplateLiteral(path) {
  if (path.parent.type !== 'TaggedTemplateExpression') {
    path.replaceWith(
      t.taggedTemplateExpression(t.identifier(tagName), path.node)
    );
  }
}
```

`parentTagged` records whether the node's immediate parent is a
`TaggedTemplateExpression` (Babel's `path.parent.type` test). A template
literal with an untagged parent is wrapped once; Babel requeues the
replacement, and on revisiting the literal its parent is the new tagged
expression, so it is not wrapped again — hence the recursion passes
`true` below the wrapper and for both children of a tagged expression,
and `false` everywhere else (in particular for the literal's own
interpolated expressions, whose parent is the `TemplateLiteral`). -/
def transformTTL (tagName : String) : Bool → JSNode → JSNode
  | parentTagged, .templateLiteral qs es =>
    let lit := JSNode.templateLiteral qs (transformTTLList tagName es)
    if parentTagged then lit
    else .taggedTemplateExpression (.identifier tagName) lit
  | _, .taggedTemplateExpression tg q =>
    .taggedTemplateExpression (transformTTL tagName true tg) (transformTTL tagName true q)
  | _, .identifier n => .identifier n
  | _, .labeledStatement l b => .labeledStatement l (transformTTL tagName false b)
  | _, .returnStatement a => .returnStatement (transformTTL tagName false a)
  | _, .expressionStatement e => .expressionStatement (transformTTL tagName false e)
  | _, .program ss => .program (transformTTLList tagName ss)
  | _, .otherNode k cs => .otherNode k (transformTTLList tagName cs)

/-- The tag-insertion transform on sibling lists; each sibling's parent
is the enclosing (non-tagged) node. -/
def transformTTLList (tagName : String) : JSNodeList → JSNodeList
  | .nil => .nil
  | .cons n ns => .cons (transformTTL tagName false n) (transformTTLList tagName ns)

end

mutual

/-- Embedding of the label-to-return transform `transformLabelToReturn`
(src/unnamed/part_001 lines 199-212):

```
LabeledStatement(path) {
  if (path.node.label.name === labelName) {
    path.replaceWith(t.returnStatement(path.node.body.expression));
  }
}
```

Only a labeled statement whose label is `labelName` is replaced, by a
return of its body's `expression` (`path.node.body.expression`; the
body of a `template:`-labeled statement is an `ExpressionStatement`
whose `expression` field the code reads — on any other body kind the
field access yields `undefined`, modelled by `otherNode "undefined"`).
Babel traverses the requeued replacement, so the transform recurses into
the extracted expression; there is no check anywhere on how many labels
match (zero matches simply leave the tree without a return). -/
def transformLabelToReturn (labelName : String) : JSNode → JSNode
  | .labeledStatement l b =>
    if l = labelName then .returnStatement (transformLabelBody labelName b)
    else .labeledStatement l (transformLabelToReturn labelName b)
  | .templateLiteral qs es => .templateLiteral qs (transformLabelToReturnList labelName es)
  | .taggedTemplateExpression tg q =>
    .taggedTemplateExpression (transformLabelToReturn labelName tg)
      (transformLabelToReturn labelName q)
  | .identifier n => .identifier n
  | .returnStatement a => .returnStatement (transformLabelToReturn labelName a)
  | .expressionStatement e => .expressionStatement (transformLabelToReturn labelName e)
  | .program ss => .program (transformLabelToReturnList labelName ss)
  | .otherNode k cs => .otherNode k (transformLabelToReturnList labelName cs)

/-- The `path.node.body.expression` read performed on a matched labeled
statement: the body of a `template:`-labeled statement is an
`ExpressionStatement` whose `expression` field is extracted (and, being
part of the requeued replacement, traversed); on any other body kind the
field access yields `undefined`. -/
def transformLabelBody (labelName : String) : JSNode → JSNode
  | .expressionStatement e => transformLabelToReturn labelName e
  | _ => .otherNode "undefined" .nil

/-- The label-to-return transform on sibling lists. -/
def transformLabelToReturnList (labelName : String) : JSNodeList → JSNodeList
  | .nil => .nil
  | .cons n ns =>
    .cons (transformLabelToReturn labelName n) (transformLabelToReturnList labelName ns)

end

/-- Embedding of the transform stage of `fromFile` (src/unnamed/part_001
lines 216-248): Babel runs the two plugins `transformTTL('t')` and
`transformLabelToReturn('template')` in one traversal; since their
visitors fire on disjoint node kinds, the merged traversal equals the
composition of the two passes. `fromFile` performs no label-count
validation and raises no error of its own (parse errors cannot arise in
the model, which starts from a syntax tree), so the result is always
`ok`; the rewritten tree then becomes the body of
`new Function('context', 'with(context) \x7b ... \x7d')`, a function
that returns `undefined` when the body contains no return statement. -/
def fromFileTransforms (src : JSNode) : Except JSException JSNode :=
  .ok (transformLabelToReturn "template" (transformTTL "t" false src))

mutual

/-- Check that every template literal in the tree sits directly under a
tagged template expression; `parentTagged` tells whether the current
node's own parent is one. -/
def allLiteralsTagged : Bool → JSNode → Bool
  | parentTagged, .templateLiteral _ es => parentTagged && allLiteralsTaggedList es
  | _, .taggedTemplateExpression tg q =>
    allLiteralsTagged true tg && allLiteralsTagged true q
  | _, .identifier _ => true
  | _, .labeledStatement _ b => allLiteralsTagged false b
  | _, .returnStatement a => allLiteralsTagged false a
  | _, .expressionStatement e => allLiteralsTagged false e
  | _, .program ss => allLiteralsTaggedList ss
  | _, .otherNode _ cs => allLiteralsTaggedList cs

/-- List version of `allLiteralsTagged`; the siblings' shared parent is
never a tagged template expression (that node kind has exactly two
direct children, not a child list). -/
def allLiteralsTaggedList : JSNodeList → Bool
  | .nil => true
  | .cons n ns => allLiteralsTagged false n && allLiteralsTaggedList ns

end

mutual

/-- Check whether the tree contains any return statement. -/
def hasReturn : JSNode → Bool
  | .returnStatement _ => true
  | .templateLiteral _ es => hasReturnList es
  | .taggedTemplateExpression tg q => hasReturn tg || hasReturn q
  | .identifier _ => false
  | .labeledStatement _ b => hasReturn b
  | .expressionStatement e => hasReturn e
  | .program ss => hasReturnList ss
  | .otherNode _ cs => hasReturnList cs

/-- List version of `hasReturn`. -/
def hasReturnList : JSNodeList → Bool
  | .nil => false
  | .cons n ns => hasReturn n || hasReturnList ns

end

mutual

/-- Count the labeled statements whose label is `labelName`. -/
def countLabels (labelName : String) : JSNode → Nat
  | .labeledStatement l b =>
    (if l = labelName then 1 else 0) + countLabels labelName b
  | .templateLiteral _ es => countLabelsList labelName es
  | .taggedTemplateExpression tg q =>
    countLabels labelName tg + countLabels labelName q
  | .identifier _ => 0
  | .returnStatement a => countLabels labelName a
  | .expressionStatement e => countLabels labelName e
  | .program ss => countLabelsList labelName ss
  | .otherNode _ cs => countLabelsList labelName cs

/-- List version of `countLabels`. -/
def countLabelsList (labelName : String) : JSNodeList → Nat
  | .nil => 0
  | .cons n ns => countLabels labelName n + countLabelsList labelName ns

end

mutual

/-- After the tag-insertion pass, every template literal in the tree is
the body of a tagged template expression. -/
theorem transformTTL_allTagged (tagName : String) (p : Bool) (n : JSNode) :
    allLiteralsTagged p (transformTTL tagName p n) = true := by
  cases n with
  | templateLiteral qs es =>
    cases p <;>
      simp [transformTTL, allLiteralsTagged, transformTTLList_allTagged tagName es]
  | taggedTemplateExpression tg q =>
    simp [transformTTL, allLiteralsTagged, transformTTL_allTagged tagName true tg,
      transformTTL_allTagged tagName true q]
  | identifier nm => rfl
  | labeledStatement l b =>
    simp [transformTTL, allLiteralsTagged, transformTTL_allTagged tagName false b]
  | returnStatement a =>
    simp [transformTTL, allLiteralsTagged, transformTTL_allTagged tagName false a]
  | expressionStatement e =>
    simp [transformTTL, allLiteralsTagged, transformTTL_allTagged tagName false e]
  | program ss =>
    simp [transformTTL, allLiteralsTagged, transformTTLList_allTagged tagName ss]
  | otherNode k cs =>
    simp [transformTTL, allLiteralsTagged, transformTTLList_allTagged tagName cs]

/-- List version of `transformTTL_allTagged`. -/
theorem transformTTLList_allTagged (tagName : String) (ns : JSNodeList) :
    allLiteralsTaggedList (transformTTLList tagName ns) = true := by
  cases ns with
  | nil => rfl
  | cons n ns =>
    simp [transformTTLList, allLiteralsTaggedList,
      transformTTL_allTagged tagName false n, transformTTLList_allTagged tagName ns]

end

mutual

/-- The tag-insertion pass neither adds nor removes return statements. -/
theorem transformTTL_hasReturn (tagName : String) (p : Bool) (n : JSNode) :
    hasReturn (transformTTL tagName p n) = hasReturn n := by
  cases n with
  | templateLiteral qs es =>
    cases p <;> simp [transformTTL, hasReturn, transformTTLList_hasReturn tagName es]
  | taggedTemplateExpression tg q =>
    simp [transformTTL, hasReturn, transformTTL_hasReturn tagName true tg,
      transformTTL_hasReturn tagName true q]
  | identifier nm => rfl
  | labeledStatement l b =>
    simp [transformTTL, hasReturn, transformTTL_hasReturn tagName false b]
  | returnStatement a => simp [transformTTL, hasReturn]
  | expressionStatement e =>
    simp [transformTTL, hasReturn, transformTTL_hasReturn tagName false e]
  | program ss => simp [transformTTL, hasReturn, transformTTLList_hasReturn tagName ss]
  | otherNode k cs => simp [transformTTL, hasReturn, transformTTLList_hasReturn tagName cs]

/-- List version of `transformTTL_hasReturn`. -/
theorem transformTTLList_hasReturn (tagName : String) (ns : JSNodeList) :
    hasReturnList (transformTTLList tagName ns) = hasReturnList ns := by
  cases ns with
  | nil => rfl
  | cons n ns =>
    simp [transformTTLList, hasReturnList, transformTTL_hasReturn tagName false n,
      transformTTLList_hasReturn tagName ns]

end

mutual

/-- The tag-insertion pass does not change the number of labeled
statements with any given label. -/
theorem transformTTL_countLabels (tagName labelName : String) (p : Bool) (n : JSNode) :
    countLabels labelName (transformTTL tagName p n) = countLabels labelName n := by
  cases n with
  | templateLiteral qs es =>
    cases p <;>
      simp [transformTTL, countLabels, transformTTLList_countLabels tagName labelName es]
  | taggedTemplateExpression tg q =>
    simp [transformTTL, countLabels, transformTTL_countLabels tagName labelName true tg,
      transformTTL_countLabels tagName labelName true q]
  | identifier nm => rfl
  | labeledStatement l b =>
    simp [transformTTL, countLabels, transformTTL_countLabels tagName labelName false b]
  | returnStatement a =>
    simp [transformTTL, countLabels, transformTTL_countLabels tagName labelName false a]
  | expressionStatement e =>
    simp [transformTTL, countLabels, transformTTL_countLabels tagName labelName false e]
  | program ss =>
    simp [transformTTL, countLabels, transformTTLList_countLabels tagName labelName ss]
  | otherNode k cs =>
    simp [transformTTL, countLabels, transformTTLList_countLabels tagName labelName cs]

/-- List version of `transformTTL_countLabels`. -/
theorem transformTTLList_countLabels (tagName labelName : String) (ns : JSNodeList) :
    countLabelsList labelName (transformTTLList tagName ns) = countLabelsList labelName ns := by
  cases ns with
  | nil => rfl
  | cons n ns =>
    simp [transformTTLList, countLabelsList,
      transformTTL_countLabels tagName labelName false n,
      transformTTLList_countLabels tagName labelName ns]

end

mutual

/-- When no labeled statement matches `labelName`, the label-to-return
pass introduces no return statement (and removes none). -/
theorem transformLabelToReturn_hasReturn (labelName : String) (n : JSNode)
    (h : countLabels labelName n = 0) :
    hasReturn (transformLabelToReturn labelName n) = hasReturn n := by
  cases n with
  | labeledStatement l b =>
    have hl : ¬ l = labelName := by
      intro he
      simp [countLabels, he] at h
    have hb : countLabels labelName b = 0 := by
      simpa [countLabels, hl] using h
    simp [transformLabelToReturn, hl, hasReturn,
      transformLabelToReturn_hasReturn labelName b hb]
  | templateLiteral qs es =>
    have he : countLabelsList labelName es = 0 := by simpa [countLabels] using h
    simp [transformLabelToReturn, hasReturn,
      transformLabelToReturnList_hasReturn labelName es he]
  | taggedTemplateExpression tg q =>
    have hsum : countLabels labelName tg + countLabels labelName q = 0 := by
      simpa [countLabels] using h
    have h1 : countLabels labelName tg = 0 := by omega
    have h2 : countLabels labelName q = 0 := by omega
    simp [transformLabelToReturn, hasReturn,
      transformLabelToReturn_hasReturn labelName tg h1,
      transformLabelToReturn_hasReturn labelName q h2]
  | identifier nm => rfl
  | returnStatement a => simp [transformLabelToReturn, hasReturn]
  | expressionStatement e =>
    have he : countLabels labelName e = 0 := by simpa [countLabels] using h
    simp [transformLabelToReturn, hasReturn,
      transformLabelToReturn_hasReturn labelName e he]
  | program ss =>
    have hs : countLabelsList labelName ss = 0 := by simpa [countLabels] using h
    simp [transformLabelToReturn, hasReturn,
      transformLabelToReturnList_hasReturn labelName ss hs]
  | otherNode k cs =>
    have hc : countLabelsList labelName cs = 0 := by simpa [countLabels] using h
    simp [transformLabelToReturn, hasReturn,
      transformLabelToReturnList_hasReturn labelName cs hc]

/-- List version of `transformLabelToReturn_hasReturn`. -/
theorem transformLabelToReturnList_hasReturn (labelName : String) (ns : JSNodeList)
    (h : countLabelsList labelName ns = 0) :
    hasReturnList (transformLabelToReturnList labelName ns) = hasReturnList ns := by
  cases ns with
  | nil => rfl
  | cons n ns =>
    have hsum : countLabels labelName n + countLabelsList labelName ns = 0 := by
      simpa [countLabelsList] using h
    have h1 : countLabels labelName n = 0 := by omega
    have h2 : countLabelsList labelName ns = 0 := by omega
    simp [transformLabelToReturnList, hasReturnList,
      transformLabelToReturn_hasReturn labelName n h1,
      transformLabelToReturnList_hasReturn labelName ns h2]

end

/-- C6: the tag-insertion pass (i) rewrites a template literal whose
immediate parent is not a tagged template expression into a tagged
template expression whose tag is the fixed identifier `tagName`, (ii)
does not wrap a template literal that is already the body of a tagged
template expression (it only recurses into its interpolated
expressions, whose own parent is the literal), and (iii) leaves the
tree with every template literal sitting directly under a tagged
template expression. -/
theorem c6_tag_insertion_pass (tagName : String) :
    (∀ qs es, transformTTL tagName false (.templateLiteral qs es) =
        .taggedTemplateExpression (.identifier tagName)
          (.templateLiteral qs (transformTTLList tagName es))) ∧
      (∀ qs es, transformTTL tagName true (.templateLiteral qs es) =
        .templateLiteral qs (transformTTLList tagName es)) ∧
      (∀ p n, allLiteralsTagged p (transformTTL tagName p n) = true) :=
  ⟨fun _ _ => rfl, fun _ _ => rfl, fun p n => transformTTL_allTagged tagName p n⟩

/-- C7 counterexample: compiling the one-statement source `x;`, which
contains zero `template:`-labeled blocks, does not fail with a
ConfigurationError or any other error: the transform stage returns the
unchanged tree wrapped in `ok` (it can never return `error`), and that
tree contains no return statement, so the compiled function silently
returns `undefined` when invoked. -/
theorem c7_counterexample_no_configuration_error :
    countLabels "template"
        (.program (.cons (.expressionStatement (.identifier "x")) .nil)) = 0 ∧
      fromFileTransforms
          (.program (.cons (.expressionStatement (.identifier "x")) .nil)) =
        .ok (.program (.cons (.expressionStatement (.identifier "x")) .nil)) ∧
      hasReturn (.program (.cons (.expressionStatement (.identifier "x")) .nil)) = false :=
  ⟨rfl, rfl, rfl⟩

/-- C7 amended: compiling a source with zero labeled template blocks
does not fail at all — `fromFile` has no label-count validation and no
ConfigurationError exists in the code. The transform stage always
succeeds, and when the source has no matching label (and no return of
its own) the rewritten function body still has no return statement, so
the compiled function silently returns `undefined`. -/
theorem c7_zero_labels_compile_silently_succeeds (src : JSNode)
    (hcount : countLabels "template" src = 0) (hret : hasReturn src = false) :
    ∃ out, fromFileTransforms src = .ok out ∧ hasReturn out = false := by
  refine ⟨_, rfl, ?_⟩
  rw [transformLabelToReturn_hasReturn "template" _
      (by rw [transformTTL_countLabels "t" "template" false src, hcount]),
    transformTTL_hasReturn "t" false src, hret]

/-- Witness for the amended C7 at the one-statement source `x;`. -/
theorem c7_zero_labels_compile_silently_succeeds_witness :
    countLabels "template"
        (.program (.cons (.expressionStatement (.identifier "y")) .nil)) = 0 ∧
      hasReturn (.program (.cons (.expressionStatement (.identifier "y")) .nil)) = false ∧
      ∃ out, fromFileTransforms
          (.program (.cons (.expressionStatement (.identifier "y")) .nil)) =
            .ok out ∧ hasReturn out = false :=
  ⟨rfl, rfl,
    c7_zero_labels_compile_silently_succeeds
      (.program (.cons (.expressionStatement (.identifier "y")) .nil)) rfl rfl⟩
